import Mathlib

/-!
Verification of the agent-factory repository: a shallow embedding of the
agent-instance cache (`src/domain/services.py`), the configuration
validator, the conversation repositories (`src/infrastructure/
mongodb_repositories.py`) and the conversation execution orchestrator
(`src/application/use_cases.py`), together with proofs of the spec's
testable properties.

Modelling conventions:
* wall-clock time is an explicit `Nat` parameter `now`; every
  `datetime.utcnow()` call inside one operation reads the same `now`
  (`datetime` subtraction that could be negative corresponds to `Nat`
  truncated subtraction, which like the Python comparison never counts
  as stale);
* Python exceptions become `Except String`;
* the `OrderedDict` of the cache becomes a list, front = least recently
  used, back = most recently used, with at most one entry per key;
* the MongoDB collections become association lists keyed by id;
* the factory's `create_agent_from_config` and the engine's `ainvoke`
  are parameters (`factory`, `engine`); the opaque engine handle type is
  a type parameter `α`;
* `asyncio.Lock` held for the whole body of `get_or_create_agent` means
  interleaved calls serialize, so concurrent executions are modelled as
  sequential composition of the embedded atomic operation.
-/

/-- Message roles (`MessageRole` in `src/domain/entities.py`). -/
inductive MessageRole where
  | human
  | assistant
  | system
deriving DecidableEq, Repr

/-- A LangChain message: its class (`HumanMessage`/`AIMessage`/`SystemMessage`,
here the role) and its string content. -/
structure Msg where
  role : MessageRole
  content : String
deriving DecidableEq, Repr

/-- A `MessageHistory` entry (`src/domain/entities.py`). -/
structure MessageHistoryEntry where
  role : MessageRole
  content : String
  timestamp : Nat
deriving DecidableEq, Repr

/-- `MCPServerConfig` (`src/domain/entities.py`). `env` and `transport`
are carried but unused by the verified operations. -/
structure MCPServerConfig where
  name : String
  command : String
  args : List String
  env : List (String × String)
  transport : String
deriving DecidableEq, Repr

/-- `AgentConfiguration` (`src/domain/entities.py`); `model_settings`
is modelled as a string map. -/
structure AgentConfiguration where
  config_id : String
  name : String
  mcp_servers : List MCPServerConfig
  system_prompt : Option String
  model_settings : List (String × String)
  created_at : Nat
  updated_at : Nat
  active : Bool
deriving DecidableEq, Repr

/-- `ConversationSession` (`src/domain/entities.py`). -/
structure ConversationSession where
  session_id : String
  config_id : String
  created_at : Nat
  updated_at : Nat
  messages : List Msg
  message_history : List MessageHistoryEntry
  active : Bool
deriving DecidableEq, Repr

/-- A cached agent instance (`AgentInstance` in `src/domain/services.py`);
`α` is the opaque engine-handle type. -/
structure AgentInstance (α : Type) where
  config_id : String
  agent : α
  created_at : Nat
  last_used : Nat
  usage_count : Nat
deriving DecidableEq, Repr

/-- `AgentInstance.mark_used`: refresh `last_used`, bump `usage_count`. -/
def AgentInstance.markUsed (e : AgentInstance α) (now : Nat) : AgentInstance α :=
  { e with last_used := now, usage_count := e.usage_count + 1 }

/-- `AgentInstance.is_stale`: stale when `now - last_used > max_idle`. -/
def AgentInstance.isStale (e : AgentInstance α) (now maxIdle : Nat) : Bool :=
  maxIdle < now - e.last_used

/-- The `AgentInstanceCache` state: capacity, idle bound, and the
`OrderedDict` as a list (front = least recently used). -/
structure CacheState (α : Type) where
  max_size : Nat
  max_idle : Nat
  entries : List (AgentInstance α)
deriving DecidableEq, Repr

/-- Result of one `get_or_create_agent` call: the new cache state, how many
times the factory was invoked (0 or 1), and the returned handle or the
propagated creation error. -/
structure CacheResult (α : Type) where
  cache : CacheState α
  factoryCalls : Nat
  agent : Except String α
deriving Repr

/-- `instance.mark_used()` after the instance was moved to / inserted at the
end of the `OrderedDict`: mutate the object at the back of the list (a no-op
on the cache when the dict is empty, i.e. the object was already evicted). -/
def markLast (now : Nat) : List (AgentInstance α) → List (AgentInstance α)
  | [] => []
  | [e] => [e.markUsed now]
  | e :: e' :: rest => e :: markLast now (e' :: rest)

/-- The miss path of `get_or_create_agent`: invoke the factory, insert the new
instance at the back, pop the front entry if over capacity, then `mark_used`. -/
def createNew (c : CacheState α) (config : AgentConfiguration)
    (factory : AgentConfiguration → Except String α) (now : Nat) : CacheResult α :=
  match factory config with
  | Except.error e => { cache := c, factoryCalls := 1, agent := Except.error e }
  | Except.ok a =>
    let inst : AgentInstance α :=
      { config_id := config.config_id, agent := a, created_at := now,
        last_used := now, usage_count := 0 }
    let e2 := c.entries ++ [inst]
    let e3 := if c.max_size < e2.length then e2.tail else e2
    { cache := { c with entries := markLast now e3 }, factoryCalls := 1,
      agent := Except.ok a }

/-- `AgentInstanceCache.get_or_create_agent` (`src/domain/services.py`).
The whole body runs under the cache's lock, so it is one atomic step. -/
def getOrCreate (c : CacheState α) (config : AgentConfiguration)
    (factory : AgentConfiguration → Except String α) (now : Nat) : CacheResult α :=
  let cid := config.config_id
  match c.entries.find? (fun e => e.config_id == cid) with
  | some inst =>
    if inst.isStale now c.max_idle then
      createNew { c with entries := c.entries.eraseP (fun e => e.config_id == cid) }
        config factory now
    else
      let reordered := (c.entries.eraseP (fun e => e.config_id == cid)) ++ [inst]
      { cache := { c with entries := markLast now reordered }, factoryCalls := 0,
        agent := Except.ok inst.agent }
  | none => createNew c config factory now

/-- The inner loop of `AgentConfigurationService.validate_configuration`:
walk the server list carrying the set of names already seen. -/
def checkServers : List MCPServerConfig → List String → Except String Unit
  | [], _ => Except.ok ()
  | s :: rest, seen =>
    if s.name = "" || s.command = "" then
      Except.error "MCP server must have name and command"
    else if seen.contains s.name then
      Except.error ("Duplicate MCP server name: " ++ s.name)
    else
      checkServers rest (s.name :: seen)

/-- `AgentConfigurationService.validate_configuration`
(`src/domain/services.py`). Pure: it inspects the configuration and
either succeeds or reports the first violation. -/
def validate_configuration (config : AgentConfiguration) : Except String Unit :=
  if config.name.trim = "" then
    Except.error "Configuration name is required"
  else if config.mcp_servers.isEmpty then
    Except.error "At least one MCP server must be configured"
  else
    checkServers config.mcp_servers []

/-- The conversation collection (`conversation_sessions` in MongoDB),
keyed by `_id = session_id`. -/
abbrev ConvStore : Type := List (String × ConversationSession)

/-- The configuration collection (`agent_configurations`), keyed by
`_id = config_id`. -/
abbrev ConfigStore : Type := List (String × AgentConfiguration)

/-- `MongoConversationRepository.get_session`: `find_one({"_id": session_id})`. -/
def get_session (store : ConvStore) (sid : String) : Option ConversationSession :=
  (store.find? (fun p => p.1 == sid)).map (fun p => p.2)

/-- `MongoAgentConfigurationRepository.get_config`: `find_one({"_id": config_id})`. -/
def get_config (store : ConfigStore) (cid : String) : Option AgentConfiguration :=
  (store.find? (fun p => p.1 == cid)).map (fun p => p.2)

/-- `MongoConversationRepository.update_session`: refresh `updated_at` then
`replace_one({"_id": session_id}, ...)`; returns the store and whether a
document was replaced. -/
def update_session (store : ConvStore) (s : ConversationSession) (now : Nat) :
    ConvStore × Bool :=
  let s' := { s with updated_at := now }
  (store.map (fun p => if p.1 == s.session_id then (p.1, s') else p),
   store.any (fun p => p.1 == s.session_id))

/-- `MongoConversationRepository.create_session`: `insert_one` with
`_id = session_id`; a duplicate `_id` raises a duplicate-key error and
leaves the collection unchanged. -/
def create_session (store : ConvStore) (s : ConversationSession) :
    Except String ConvStore :=
  if store.any (fun p => p.1 == s.session_id) then
    Except.error ("E11000 duplicate key error: " ++ s.session_id)
  else
    Except.ok (store ++ [(s.session_id, s)])

/-- `ConversationService.create_conversation` (`src/domain/services.py`)
with a caller-supplied session id: a fresh empty session. -/
def create_conversation (config_id session_id : String) (now : Nat) :
    ConversationSession :=
  { session_id := session_id, config_id := config_id, created_at := now,
    updated_at := now, messages := [], message_history := [], active := true }

/-- `StartConversationUseCase.execute` (`src/application/use_cases.py`) with
a caller-supplied session id: verify the configuration exists, build the
session, insert it. Errors propagate with the store unchanged. -/
def startConversation (configStore : ConfigStore) (convStore : ConvStore)
    (config_id session_id : String) (now : Nat) : Except String String × ConvStore :=
  match get_config configStore config_id with
  | none => (Except.error ("Configuration " ++ config_id ++ " not found"), convStore)
  | some _ =>
    match create_session convStore (create_conversation config_id session_id now) with
    | Except.error e => (Except.error e, convStore)
    | Except.ok store' => (Except.ok session_id, store')

/-- Append one turn to both the structured message list and the
human-readable history (`session.messages.append` +
`session.message_history.append` in `ExecuteConversationUseCase`). -/
def appendTurn (s : ConversationSession) (role : MessageRole) (text : String)
    (now : Nat) : ConversationSession :=
  { s with messages := s.messages ++ [{ role := role, content := text }],
           message_history := s.message_history ++
             [{ role := role, content := text, timestamp := now }] }

/-- The apology string synthesized by `_sync_response` when anything in
its `try` block raises. -/
def errorResponseText (e : String) : String :=
  "I apologize, but I encountered an error: " ++ e

/-- Response extraction in `_sync_response`: take the last message of
`result["messages"]`; its `content` either way (`AIMessage.content` or
`str(content)`); fall back to a fixed string when the key is missing or
the list empty. -/
def extractResponse (result : Option (List Msg)) : String :=
  match result with
  | none => "Agent executed but returned no response."
  | some msgs =>
    match msgs.getLast? with
    | none => "Agent executed but returned no response."
    | some m => m.content

/-- Tail of `_sync_response` shared by the success and the except path:
append the assistant turn, refresh `updated_at`, persist via
`update_session`. Returns the mutated session and the new store. -/
def syncFinish (session : ConversationSession) (store : ConvStore) (now : Nat)
    (response : String) : ConversationSession × ConvStore :=
  let s1 := appendTurn session MessageRole.assistant response now
  let s2 := { s1 with updated_at := now }
  (s2, (update_session store s2 now).1)

/-- Outcome of `_sync_response`: the returned text, the mutated session,
the new conversation store and cache, and how often the factory and the
engine were invoked. -/
structure SyncResult (α : Type) where
  response : String
  session : ConversationSession
  store : ConvStore
  cache : CacheState α
  factoryCalls : Nat
  engineCalls : Nat

/-- `ExecuteConversationUseCase._sync_response`: resolve the engine handle
through the cache, invoke it on the full message list, extract the text,
append + persist; any raise inside the `try` (factory, cache, engine) is
converted into the apology turn, which is appended and persisted the same
way, and returned normally. -/
def syncResponse (session : ConversationSession) (config : AgentConfiguration)
    (cache : CacheState α) (factory : AgentConfiguration → Except String α)
    (engine : α → List Msg → Except String (Option (List Msg)))
    (store : ConvStore) (now : Nat) : SyncResult α :=
  let r := getOrCreate cache config factory now
  match r.agent with
  | Except.error e =>
    let (s2, store') := syncFinish session store now (errorResponseText e)
    { response := errorResponseText e, session := s2, store := store',
      cache := r.cache, factoryCalls := r.factoryCalls, engineCalls := 0 }
  | Except.ok ag =>
    match engine ag session.messages with
    | Except.error e =>
      let (s2, store') := syncFinish session store now (errorResponseText e)
      { response := errorResponseText e, session := s2, store := store',
        cache := r.cache, factoryCalls := r.factoryCalls, engineCalls := 1 }
    | Except.ok res =>
      let (s2, store') := syncFinish session store now (extractResponse res)
      { response := extractResponse res, session := s2, store := store',
        cache := r.cache, factoryCalls := r.factoryCalls, engineCalls := 1 }

/-- Outcome of a non-streaming `execute`: the response with the final
`len(session.messages)` (or the propagated `NotFound`), the stores it may
have mutated, and the invocation counters. The configuration store is
read-only throughout and therefore not threaded. -/
structure ExecOutcome (α : Type) where
  result : Except String (String × Nat)
  convStore : ConvStore
  cache : CacheState α
  factoryCalls : Nat
  engineCalls : Nat

/-- `ExecuteConversationUseCase.execute` with `stream=False`
(`src/application/use_cases.py`): load session (NotFound on absence),
load configuration (NotFound on absence), append the human turn to the
in-memory session, then `_sync_response`. -/
def executeConversation (convStore : ConvStore) (configStore : ConfigStore)
    (cache : CacheState α) (factory : AgentConfiguration → Except String α)
    (engine : α → List Msg → Except String (Option (List Msg)))
    (sid msg : String) (now : Nat) : ExecOutcome α :=
  match get_session convStore sid with
  | none =>
    { result := Except.error ("Session " ++ sid ++ " not found"),
      convStore := convStore, cache := cache, factoryCalls := 0, engineCalls := 0 }
  | some session =>
    match get_config configStore session.config_id with
    | none =>
      { result := Except.error ("Configuration " ++ session.config_id ++ " not found"),
        convStore := convStore, cache := cache, factoryCalls := 0, engineCalls := 0 }
    | some config =>
      let s1 := appendTurn session MessageRole.human msg now
      let r := syncResponse s1 config cache factory engine convStore now
      { result := Except.ok (r.response, r.session.messages.length),
        convStore := r.store, cache := r.cache,
        factoryCalls := r.factoryCalls, engineCalls := r.engineCalls }

/-- `ExecuteConversationUseCase._stream_response`: the fixed placeholder
fragment sequence it yields; it touches neither the session nor any store. -/
def streamFragments (config : AgentConfiguration) : List String :=
  ["Processing message with configuration \x27" ++ config.name ++ "\x27...",
   "This is a ", "streamed ", "response"]

/-- `ExecuteConversationUseCase.execute` with `stream=True`: load session and
configuration (NotFound on absence), append the human turn to the in-memory
session object only, and hand back the generator. Nothing is persisted: the
conversation store is returned unchanged on every path. -/
def executeConversationStream (convStore : ConvStore) (configStore : ConfigStore)
    (sid msg : String) (now : Nat) : Except String (List String) × ConvStore :=
  match get_session convStore sid with
  | none => (Except.error ("Session " ++ sid ++ " not found"), convStore)
  | some session =>
    match get_config configStore session.config_id with
    | none =>
      (Except.error ("Configuration " ++ session.config_id ++ " not found"), convStore)
    | some config =>
      let _s1 := appendTurn session MessageRole.human msg now
      (Except.ok (streamFragments config), convStore)

/-- One event on the streaming wire (`WebAPI._stream_conversation_response`). -/
inductive StreamEvent where
  | message (data : String)
  | complete
  | failed (e : String)
deriving DecidableEq, Repr

/-- `WebAPI._stream_conversation_response` (`src/infrastructure/web_api.py`):
forward every fragment as a `message` event and close with a `complete`
event; a raise becomes a single error event. -/
def webStreamEvents (convStore : ConvStore) (configStore : ConfigStore)
    (sid msg : String) (now : Nat) : List StreamEvent :=
  match (executeConversationStream convStore configStore sid msg now).1 with
  | Except.ok frags => frags.map StreamEvent.message ++ [StreamEvent.complete]
  | Except.error e => [StreamEvent.failed e]

/-! ## Helper lemmas -/

/-- `mark_used` on the object at the back of the dict. -/
theorem markLast_append (now : Nat) (E : List (AgentInstance α)) (x : AgentInstance α) :
    markLast now (E ++ [x]) = E ++ [x.markUsed now] := by
  induction E with
  | nil => rfl
  | cons e E ih =>
    cases E with
    | nil => rfl
    | cons e' E' =>
      have hstep : markLast now ((e :: e' :: E') ++ [x])
          = e :: markLast now ((e' :: E') ++ [x]) := rfl
      rw [hstep, ih]
      rfl

/-- `find?` over a list whose only match is the final element. -/
theorem find?_append_single {p : AgentInstance α → Bool}
    (E : List (AgentInstance α)) (x : AgentInstance α)
    (hE : ∀ e ∈ E, p e = false) (hx : p x = true) :
    (E ++ [x]).find? p = some x := by
  rw [List.find?_append]
  have h1 : E.find? p = none := List.find?_eq_none.mpr (by
    intro e he
    simp [hE e he])
  rw [h1, List.find?_cons_of_pos _ hx]
  rfl

/-- `eraseP` over a list whose only match is the final element. -/
theorem eraseP_append_single {p : AgentInstance α → Bool}
    (E : List (AgentInstance α)) (x : AgentInstance α)
    (hE : ∀ e ∈ E, p e = false) (hx : p x = true) :
    (E ++ [x]).eraseP p = E := by
  rw [List.eraseP_append_right _ (by intro b hb; simp [hE b hb]),
      List.eraseP_cons_of_pos hx]
  simp

/-- When no entry holds the requested config id, `get_or_create_agent`
takes the creation path. -/
theorem getOrCreate_absent {α : Type} (c : CacheState α) (cfg : AgentConfiguration)
    (factory : AgentConfiguration → Except String α) (now : Nat)
    (habs : ∀ e ∈ c.entries, e.config_id ≠ cfg.config_id) :
    getOrCreate c cfg factory now = createNew c cfg factory now := by
  have hfind : c.entries.find? (fun e => e.config_id == cfg.config_id) = none :=
    List.find?_eq_none.mpr (by
      intro e he
      simp [habs e he])
  simp only [getOrCreate, hfind]

/-- A live entry at the back of the dict whose config id matches and is not
stale: `get_or_create_agent` is a pure hit. -/
theorem getOrCreate_hit_last {α : Type} (c : CacheState α) (cfg : AgentConfiguration)
    (factory : AgentConfiguration → Except String α) (now : Nat)
    (D : List (AgentInstance α)) (x : AgentInstance α)
    (hD : c.entries = D ++ [x]) (hx : x.config_id = cfg.config_id)
    (habs : ∀ e ∈ D, e.config_id ≠ cfg.config_id)
    (hfresh : ¬ c.max_idle < now - x.last_used) :
    getOrCreate c cfg factory now
      = { cache := { c with entries := D ++ [x.markUsed now] }, factoryCalls := 0,
          agent := Except.ok x.agent } := by
  have hpred : ∀ e ∈ D, (e.config_id == cfg.config_id) = false := by
    intro e he
    simp [habs e he]
  have hfind : c.entries.find? (fun e => e.config_id == cfg.config_id) = some x := by
    rw [hD]; exact find?_append_single D x hpred (by simp [hx])
  have herase : c.entries.eraseP (fun e => e.config_id == cfg.config_id) = D := by
    rw [hD]; exact eraseP_append_single D x hpred (by simp [hx])
  have hstale : x.isStale now c.max_idle = false := by
    simp [AgentInstance.isStale, hfresh]
  simp only [getOrCreate, hfind, hstale, herase, Bool.false_eq_true, if_false,
    markLast_append]

/-! ## Claim C7: configuration validation -/

/-- `checkServers` succeeds exactly when every remaining descriptor has a
name and a command, the remaining names are pairwise distinct, and none of
them was already seen. -/
theorem checkServers_ok_iff (l : List MCPServerConfig) (seen : List String) :
    checkServers l seen = Except.ok () ↔
      ((∀ s ∈ l, s.name ≠ "" ∧ s.command ≠ "") ∧
       (l.map (fun s => s.name)).Nodup ∧
       (∀ s ∈ l, s.name ∉ seen)) := by
  induction l generalizing seen with
  | nil => simp [checkServers]
  | cons s rest ih =>
    by_cases h1 : s.name = "" ∨ s.command = ""
    · have hbad : (decide (s.name = "") || decide (s.command = "")) = true := by
        rcases h1 with h | h <;> simp [h]
      constructor
      · intro h
        simp only [checkServers, hbad, if_true] at h
        cases h
      · rintro ⟨hall, -, -⟩
        rcases hall s (by simp) with ⟨hn, hc⟩
        rcases h1 with h | h
        · exact absurd h hn
        · exact absurd h hc
    · push_neg at h1
      have hgood : (decide (s.name = "") || decide (s.command = "")) = false := by
        simp [h1.1, h1.2]
      by_cases h2 : seen.contains s.name
      · constructor
        · intro h
          simp only [checkServers, hgood, Bool.false_eq_true, if_false, h2, if_true] at h
          cases h
        · rintro ⟨-, -, hseen⟩
          exact absurd (by simpa using h2) (hseen s (by simp))
      · have h2' : seen.contains s.name = false := by
          simpa using h2
        have h2m : s.name ∉ seen := by
          simpa using h2
        have hstep : checkServers (s :: rest) seen = checkServers rest (s.name :: seen) := by
          simp only [checkServers, hgood, Bool.false_eq_true, if_false, h2', if_false]
        rw [hstep, ih]
        constructor
        · rintro ⟨hall, hnd, hseen⟩
          refine ⟨?_, ?_, ?_⟩
          · intro t ht
            rcases List.mem_cons.mp ht with rfl | ht'
            · exact ⟨h1.1, h1.2⟩
            · exact hall t ht'
          · rw [List.map_cons]
            refine List.nodup_cons.mpr ⟨?_, hnd⟩
            intro hmem
            rcases List.mem_map.mp hmem with ⟨t, ht, hteq⟩
            exact (hseen t ht) (by simp [hteq])
          · intro t ht
            rcases List.mem_cons.mp ht with rfl | ht'
            · exact h2m
            · intro hc
              exact (hseen t ht') (by simp [hc])
        · rintro ⟨hall, hnd, hseen⟩
          rw [List.map_cons] at hnd
          have hnd' := List.nodup_cons.mp hnd
          refine ⟨fun t ht => hall t (by simp [ht]), hnd'.2, ?_⟩
          intro t ht
          simp only [List.mem_cons]
          push_neg
          constructor
          · intro hteq
            exact hnd'.1 (List.mem_map.mpr ⟨t, ht, hteq⟩)
          · exact fun hc => (hseen t (by simp [ht])) hc

/-- Claim C7: `validate_configuration` fails exactly when the name is blank
(empty after stripping whitespace), the tool-server list is empty, some
descriptor lacks a name or a command, or two descriptors share a name; on a
configuration meeting all conditions it succeeds (and, being pure, modifies
nothing). -/
theorem validate_configuration_fails_iff (c : AgentConfiguration) :
    (∃ e, validate_configuration c = Except.error e) ↔
      (c.name.trim = "" ∨ c.mcp_servers = [] ∨
       (∃ s ∈ c.mcp_servers, s.name = "" ∨ s.command = "") ∨
       ¬ (c.mcp_servers.map (fun s => s.name)).Nodup) := by
  have hok : validate_configuration c = Except.ok () ↔
      (c.name.trim ≠ "" ∧ c.mcp_servers ≠ [] ∧
        (∀ s ∈ c.mcp_servers, s.name ≠ "" ∧ s.command ≠ "") ∧
        (c.mcp_servers.map (fun s => s.name)).Nodup) := by
    unfold validate_configuration
    by_cases h1 : c.name.trim = ""
    · simp [h1]
    · by_cases h2 : c.mcp_servers.isEmpty
      · have h2' : c.mcp_servers = [] := by
          simpa using h2
        simp [h1, h2']
      · have h2' : c.mcp_servers ≠ [] := by
          simpa using h2
        rw [if_neg h1, if_neg (by simpa using h2), checkServers_ok_iff]
        simp [h1, h2']
  have hdich : (∃ e, validate_configuration c = Except.error e)
      ↔ ¬ validate_configuration c = Except.ok () := by
    cases hv : validate_configuration c with
    | ok u => cases u; simp
    | error e => simp
  rw [hdich, hok]
  push_neg
  constructor
  · intro h
    by_cases hA : c.name.trim = ""
    · exact Or.inl hA
    · by_cases hB : c.mcp_servers = []
      · exact Or.inr (Or.inl hB)
      · by_cases hC : ∀ s ∈ c.mcp_servers, s.name ≠ "" ∧ s.command ≠ ""
        · exact Or.inr (Or.inr (Or.inr (h hA hB hC)))
        · push_neg at hC
          rcases hC with ⟨s, hs, hbad⟩
          refine Or.inr (Or.inr (Or.inl ⟨s, hs, ?_⟩))
          by_cases hn : s.name = ""
          · exact Or.inl hn
          · exact Or.inr (hbad hn)
  · intro h hA hB hC
    rcases h with h | h | h | h
    · exact absurd h hA
    · exact absurd h hB
    · rcases h with ⟨s, hs, hbad⟩
      rcases hC s hs with ⟨hn, hc⟩
      rcases hbad with h | h
      · exact absurd h hn
      · exact absurd h hc
    · exact h

/-! ## Claims C2, C4, C5: the agent-instance cache -/

/-- Claim C2: with the cache holding `max_size` entries, `get_or_create_agent`
for an absent config id inserts the new entry (insertion counting as a use:
`usage_count = 1`, `last_used = now`) and evicts exactly the front entry —
the one with the oldest `last_used`, the least recently used — keeping every
other entry, and the size is again `max_size`. -/
theorem cache_full_insert_evicts_oldest {α : Type}
    (c : CacheState α) (cfg : AgentConfiguration)
    (factory : AgentConfiguration → Except String α) (now : Nat) (a : α)
    (hd : AgentInstance α) (rest : List (AgentInstance α))
    (hcons : c.entries = hd :: rest)
    (hlen : c.entries.length = c.max_size)
    (habs : ∀ e ∈ c.entries, e.config_id ≠ cfg.config_id)
    (hfac : factory cfg = Except.ok a)
    (hold : ∀ e ∈ c.entries, hd.last_used ≤ e.last_used) :
    (getOrCreate c cfg factory now).cache.entries
        = rest ++ [{ config_id := cfg.config_id, agent := a, created_at := now,
                     last_used := now, usage_count := 1 }] ∧
    (getOrCreate c cfg factory now).cache.entries.length = c.max_size ∧
    (getOrCreate c cfg factory now).agent = Except.ok a := by
  rw [getOrCreate_absent c cfg factory now habs]
  simp only [createNew, hfac]
  rw [hcons] at hlen ⊢
  have hlen' : rest.length + 1 = c.max_size := by
    simpa using hlen
  have hcond : c.max_size < ((hd :: rest) ++
      [({ config_id := cfg.config_id, agent := a, created_at := now,
          last_used := now, usage_count := 0 } : AgentInstance α)]).length := by
    simp only [List.length_append, List.length_cons, List.length_nil]
    omega
  rw [if_pos hcond]
  have htail : ((hd :: rest) ++
      [({ config_id := cfg.config_id, agent := a, created_at := now,
          last_used := now, usage_count := 0 } : AgentInstance α)]).tail
      = rest ++ [{ config_id := cfg.config_id, agent := a, created_at := now,
                   last_used := now, usage_count := 0 }] := by
    simp
  rw [htail, markLast_append]
  refine ⟨by trivial, ?_, by trivial⟩
  have hr : rest.length + 1 = c.max_size := by
    simpa using hlen
  simpa using hr

/-- Witness for C2 at a concrete two-entry cache at capacity. -/
theorem cache_full_insert_evicts_oldest_witness :
    (getOrCreate (⟨2, 30, [⟨"a", 1, 0, 1, 1⟩, ⟨"b", 2, 0, 2, 1⟩]⟩ : CacheState Nat)
        ⟨"cfg1", "demo", [⟨"calc", "calc-server", [], [], "stdio"⟩], none, [], 0, 0, true⟩
        (fun _ => Except.ok 7) 5).cache.entries
      = [⟨"b", 2, 0, 2, 1⟩] ++ [{ config_id := "cfg1", agent := 7, created_at := 5,
                                  last_used := 5, usage_count := 1 }] ∧
    (getOrCreate (⟨2, 30, [⟨"a", 1, 0, 1, 1⟩, ⟨"b", 2, 0, 2, 1⟩]⟩ : CacheState Nat)
        ⟨"cfg1", "demo", [⟨"calc", "calc-server", [], [], "stdio"⟩], none, [], 0, 0, true⟩
        (fun _ => Except.ok 7) 5).cache.entries.length
      = (⟨2, 30, [⟨"a", 1, 0, 1, 1⟩, ⟨"b", 2, 0, 2, 1⟩]⟩ : CacheState Nat).max_size ∧
    (getOrCreate (⟨2, 30, [⟨"a", 1, 0, 1, 1⟩, ⟨"b", 2, 0, 2, 1⟩]⟩ : CacheState Nat)
        ⟨"cfg1", "demo", [⟨"calc", "calc-server", [], [], "stdio"⟩], none, [], 0, 0, true⟩
        (fun _ => Except.ok 7) 5).agent = Except.ok 7 :=
  cache_full_insert_evicts_oldest _ _ _ 5 7 ⟨"a", 1, 0, 1, 1⟩ [⟨"b", 2, 0, 2, 1⟩]
    rfl (by decide) (by decide) rfl (by decide)

/-- Claim C4: an entry idle for longer than `max_idle` is treated as absent
by the next `get_or_create_agent` for its config id: the stale entry is
removed, the factory is invoked once, the slot is replaced with a fresh
instance, and the fresh handle — not the stale one — is returned. -/
theorem cache_stale_entry_recreated {α : Type}
    (c : CacheState α) (cfg : AgentConfiguration)
    (factory : AgentConfiguration → Except String α) (now : Nat) (a : α)
    (pre post : List (AgentInstance α)) (inst : AgentInstance α)
    (hsplit : c.entries = pre ++ inst :: post)
    (hkey : inst.config_id = cfg.config_id)
    (hpre : ∀ e ∈ pre, e.config_id ≠ cfg.config_id)
    (hstale : c.max_idle < now - inst.last_used)
    (hfac : factory cfg = Except.ok a)
    (hlen : c.entries.length ≤ c.max_size) :
    (getOrCreate c cfg factory now).agent = Except.ok a ∧
    (getOrCreate c cfg factory now).factoryCalls = 1 ∧
    (getOrCreate c cfg factory now).cache.entries
      = (pre ++ post) ++ [{ config_id := cfg.config_id, agent := a,
                            created_at := now, last_used := now, usage_count := 1 }] := by
  have hpred : ∀ e ∈ pre, (e.config_id == cfg.config_id) = false := by
    intro e he
    simp [hpre e he]
  have hfind : c.entries.find? (fun e => e.config_id == cfg.config_id) = some inst := by
    rw [hsplit, List.find?_append]
    have h1 : pre.find? (fun e => e.config_id == cfg.config_id) = none :=
      List.find?_eq_none.mpr (by intro e he; simp [hpre e he])
    rw [h1, List.find?_cons_of_pos _ (by simp [hkey])]
    rfl
  have hstaleb : inst.isStale now c.max_idle = true := by
    simp [AgentInstance.isStale, hstale]
  have herase : c.entries.eraseP (fun e => e.config_id == cfg.config_id)
      = pre ++ post := by
    rw [hsplit, List.eraseP_append_right _ (by intro b hb; simp [hpre b hb]),
        List.eraseP_cons_of_pos (by simp [hkey])]
  simp only [getOrCreate, hfind, hstaleb, if_true, createNew, hfac, herase]
  have hcond : ¬ c.max_size < ((pre ++ post) ++
      [({ config_id := cfg.config_id, agent := a, created_at := now,
          last_used := now, usage_count := 0 } : AgentInstance α)]).length := by
    rw [hsplit] at hlen
    simp only [List.length_append, List.length_cons, List.length_nil] at hlen ⊢
    omega
  rw [if_neg hcond, markLast_append]
  exact ⟨by trivial, by trivial, by trivial⟩

/-- Witness for C4: a one-entry cache whose entry has been idle for 40 > 30
time units. -/
theorem cache_stale_entry_recreated_witness :
    (getOrCreate (⟨50, 30, [⟨"cfg1", 99, 0, 0, 1⟩]⟩ : CacheState Nat)
        ⟨"cfg1", "demo", [⟨"calc", "calc-server", [], [], "stdio"⟩], none, [], 0, 0, true⟩
        (fun _ => Except.ok 7) 40).agent = Except.ok 7 ∧
    (getOrCreate (⟨50, 30, [⟨"cfg1", 99, 0, 0, 1⟩]⟩ : CacheState Nat)
        ⟨"cfg1", "demo", [⟨"calc", "calc-server", [], [], "stdio"⟩], none, [], 0, 0, true⟩
        (fun _ => Except.ok 7) 40).factoryCalls = 1 ∧
    (getOrCreate (⟨50, 30, [⟨"cfg1", 99, 0, 0, 1⟩]⟩ : CacheState Nat)
        ⟨"cfg1", "demo", [⟨"calc", "calc-server", [], [], "stdio"⟩], none, [], 0, 0, true⟩
        (fun _ => Except.ok 7) 40).cache.entries
      = ([] ++ []) ++ [{ config_id := "cfg1", agent := 7, created_at := 40,
                         last_used := 40, usage_count := 1 }] :=
  cache_stale_entry_recreated _ _ _ 40 7 [] [] ⟨"cfg1", 99, 0, 0, 1⟩
    rfl rfl (by intro e he; cases he) (by decide) rfl (by decide)

/-- Claim C5: two interleaved `get_or_create_agent` calls for the same
config id while no entry exists. The cache's `asyncio.Lock` is held across
the whole read-check-create-insert-evict body including the factory call,
so any interleaving of the two calls is a sequential composition of the
atomic operation; across the two calls the factory runs exactly once, both
callers receive the same handle, and the config id holds exactly one cache
entry afterwards. -/
theorem cache_concurrent_same_config_single_creation {α : Type}
    (c : CacheState α) (cfg : AgentConfiguration)
    (factory : AgentConfiguration → Except String α) (now₁ now₂ : Nat) (a : α)
    (habs : ∀ e ∈ c.entries, e.config_id ≠ cfg.config_id)
    (hfac : factory cfg = Except.ok a)
    (hsz : 0 < c.max_size)
    (hfresh : now₂ - now₁ ≤ c.max_idle) :
    (getOrCreate c cfg factory now₁).factoryCalls = 1 ∧
    (getOrCreate (getOrCreate c cfg factory now₁).cache cfg factory now₂).factoryCalls
      = 0 ∧
    (getOrCreate c cfg factory now₁).agent = Except.ok a ∧
    (getOrCreate (getOrCreate c cfg factory now₁).cache cfg factory now₂).agent
      = Except.ok a ∧
    ((getOrCreate (getOrCreate c cfg factory now₁).cache cfg factory now₂).cache.entries.filter
        (fun e => e.config_id == cfg.config_id)).length = 1 := by
  have hr1 := getOrCreate_absent c cfg factory now₁ habs
  -- the shape of the cache after the first call: some survivors `D` from the
  -- old entries, then the freshly inserted and marked instance
  have hshape : ∃ D : List (AgentInstance α),
      (getOrCreate c cfg factory now₁).cache
        = { max_size := c.max_size, max_idle := c.max_idle,
            entries := D ++ [(⟨cfg.config_id, a, now₁, now₁, 1⟩ : AgentInstance α)] } ∧
      (∀ e ∈ D, e.config_id ≠ cfg.config_id) := by
    rw [hr1]
    simp only [createNew, hfac]
    by_cases hc : c.max_size < (c.entries ++
        [(⟨cfg.config_id, a, now₁, now₁, 0⟩ : AgentInstance α)]).length
    · rw [if_pos hc]
      have hne : c.entries ≠ [] := by
        intro hnil
        rw [hnil] at hc
        simp at hc
        omega
      obtain ⟨hd, rest, hcons⟩ := List.exists_cons_of_ne_nil hne
      refine ⟨rest, ?_, ?_⟩
      · rw [hcons]
        have htail : ((hd :: rest) ++
            [(⟨cfg.config_id, a, now₁, now₁, 0⟩ : AgentInstance α)]).tail
            = rest ++ [(⟨cfg.config_id, a, now₁, now₁, 0⟩ : AgentInstance α)] := by
          simp
        rw [htail, markLast_append]
        rfl
      · intro e he
        exact habs e (by rw [hcons]; exact List.mem_cons_of_mem _ he)
    · rw [if_neg hc]
      refine ⟨c.entries, ?_, habs⟩
      rw [markLast_append]
      rfl
  obtain ⟨D, hD, hDabs⟩ := hshape
  have hfresh' : ¬ ((getOrCreate c cfg factory now₁).cache.max_idle
      < now₂ - ((⟨cfg.config_id, a, now₁, now₁, 1⟩ : AgentInstance α)).last_used) := by
    rw [hD]
    simpa using hfresh
  have hr2 := getOrCreate_hit_last (getOrCreate c cfg factory now₁).cache cfg factory now₂
    D (⟨cfg.config_id, a, now₁, now₁, 1⟩ : AgentInstance α) (by rw [hD]) rfl hDabs hfresh'
  refine ⟨?_, ?_, ?_, ?_, ?_⟩
  · rw [hr1]
    simp [createNew, hfac]
  · rw [hr2]
  · rw [hr1]
    simp [createNew, hfac]
  · rw [hr2]
  · rw [hr2]
    simp only [List.filter_append]
    have h1 : D.filter (fun e => e.config_id == cfg.config_id) = [] := by
      rw [List.filter_eq_nil_iff]
      intro e he
      simp [hDabs e he]
    rw [h1]
    simp [AgentInstance.markUsed]

/-- Witness for C5: two back-to-back calls on an initially empty cache. -/
theorem cache_concurrent_same_config_single_creation_witness :
    (getOrCreate (⟨50, 30, []⟩ : CacheState Nat)
        ⟨"cfg1", "demo", [⟨"calc", "calc-server", [], [], "stdio"⟩], none, [], 0, 0, true⟩
        (fun _ => Except.ok 7) 5).factoryCalls = 1 ∧
    (getOrCreate (getOrCreate (⟨50, 30, []⟩ : CacheState Nat)
        ⟨"cfg1", "demo", [⟨"calc", "calc-server", [], [], "stdio"⟩], none, [], 0, 0, true⟩
        (fun _ => Except.ok 7) 5).cache
        ⟨"cfg1", "demo", [⟨"calc", "calc-server", [], [], "stdio"⟩], none, [], 0, 0, true⟩
        (fun _ => Except.ok 7) 6).factoryCalls = 0 ∧
    (getOrCreate (⟨50, 30, []⟩ : CacheState Nat)
        ⟨"cfg1", "demo", [⟨"calc", "calc-server", [], [], "stdio"⟩], none, [], 0, 0, true⟩
        (fun _ => Except.ok 7) 5).agent = Except.ok 7 ∧
    (getOrCreate (getOrCreate (⟨50, 30, []⟩ : CacheState Nat)
        ⟨"cfg1", "demo", [⟨"calc", "calc-server", [], [], "stdio"⟩], none, [], 0, 0, true⟩
        (fun _ => Except.ok 7) 5).cache
        ⟨"cfg1", "demo", [⟨"calc", "calc-server", [], [], "stdio"⟩], none, [], 0, 0, true⟩
        (fun _ => Except.ok 7) 6).agent = Except.ok 7 ∧
    ((getOrCreate (getOrCreate (⟨50, 30, []⟩ : CacheState Nat)
        ⟨"cfg1", "demo", [⟨"calc", "calc-server", [], [], "stdio"⟩], none, [], 0, 0, true⟩
        (fun _ => Except.ok 7) 5).cache
        ⟨"cfg1", "demo", [⟨"calc", "calc-server", [], [], "stdio"⟩], none, [], 0, 0, true⟩
        (fun _ => Except.ok 7) 6).cache.entries.filter
        (fun e => e.config_id == "cfg1")).length = 1 :=
  cache_concurrent_same_config_single_creation (⟨50, 30, []⟩ : CacheState Nat)
    ⟨"cfg1", "demo", [⟨"calc", "calc-server", [], [], "stdio"⟩], none, [], 0, 0, true⟩
    (fun _ => Except.ok 7) 5 6 7
    (by intro e he; cases he) rfl (by decide) (by decide)

/-! ## Claims C1, C3, C8, C10: the execution orchestrator -/

/-- `replace_one` through `update_session` on a key that is present:
the subsequent read returns the replacement (with `updated_at` refreshed). -/
theorem get_session_update_found (store : ConvStore) (sid : String)
    (s0 s : ConversationSession) (now : Nat)
    (hs : get_session store sid = some s0) (hid : s.session_id = sid) :
    get_session (update_session store s now).1 sid
      = some { s with updated_at := now } := by
  have hf : ((fun p : String × ConversationSession => p.1 == sid) ∘
      (fun p : String × ConversationSession =>
        if (p.1 == s.session_id) = true then (p.1, { s with updated_at := now })
        else p)) = (fun p : String × ConversationSession => p.1 == sid) := by
    funext p
    by_cases h : (p.1 == s.session_id) = true
    · simp only [Function.comp_apply, if_pos h]
    · simp only [Function.comp_apply, if_neg h]
  have hcomm : (update_session store s now).1.find?
        (fun p => p.1 == sid)
      = (store.find? (fun p => p.1 == sid)).map
          (fun p => if (p.1 == s.session_id) = true
                    then (p.1, { s with updated_at := now }) else p) := by
    show (store.map _).find? _ = _
    rw [List.find?_map, hf]
  obtain ⟨pair, hpair⟩ : ∃ pair, store.find? (fun p => p.1 == sid) = some pair := by
    unfold get_session at hs
    cases hfind : store.find? (fun p => p.1 == sid) with
    | none =>
      rw [hfind] at hs
      simp at hs
    | some q => exact ⟨q, rfl⟩
  have hkey0 := List.find?_some hpair
  have hkey' : (pair.1 == s.session_id) = true := by
    rw [hid]; exact hkey0
  unfold get_session
  rw [hcomm, hpair]
  have heq : pair.1 = s.session_id := by
    simpa using hkey'
  simp [heq]

/-- Claim C3: a successful non-streaming `execute` appends exactly one human
and one assistant turn to the stored session (structured messages and history
alike grow by the same two entries) and strictly increases `updated_at`. -/
theorem execute_success_adds_two_turns {α : Type}
    (convStore : ConvStore) (configStore : ConfigStore) (cache : CacheState α)
    (factory : AgentConfiguration → Except String α)
    (engine : α → List Msg → Except String (Option (List Msg)))
    (sid msg : String) (now : Nat) (s : ConversationSession)
    (c : AgentConfiguration) (ag : α) (res : Option (List Msg))
    (hs : get_session convStore sid = some s)
    (hid : s.session_id = sid)
    (hc : get_config configStore s.config_id = some c)
    (hag : (getOrCreate cache c factory now).agent = Except.ok ag)
    (heng : engine ag (s.messages ++ [⟨MessageRole.human, msg⟩]) = Except.ok res)
    (ht : s.updated_at < now) :
    (executeConversation convStore configStore cache factory engine sid msg now).result
        = Except.ok (extractResponse res, s.messages.length + 2) ∧
    get_session
        (executeConversation convStore configStore cache factory engine sid msg now).convStore
        sid
      = some { s with
          messages := s.messages ++
            [⟨MessageRole.human, msg⟩, ⟨MessageRole.assistant, extractResponse res⟩],
          message_history := s.message_history ++
            [⟨MessageRole.human, msg, now⟩,
             ⟨MessageRole.assistant, extractResponse res, now⟩],
          updated_at := now } ∧
    s.updated_at < now := by
  have hmsgs : (appendTurn s MessageRole.human msg now).messages
      = s.messages ++ [⟨MessageRole.human, msg⟩] := rfl
  have hexec : executeConversation convStore configStore cache factory engine sid msg now
      = { result := Except.ok (extractResponse res, s.messages.length + 2),
          convStore := (update_session convStore
            { s with
                messages := s.messages ++
                  [⟨MessageRole.human, msg⟩, ⟨MessageRole.assistant, extractResponse res⟩],
                message_history := s.message_history ++
                  [⟨MessageRole.human, msg, now⟩,
                   ⟨MessageRole.assistant, extractResponse res, now⟩],
                updated_at := now } now).1,
          cache := (getOrCreate cache c factory now).cache,
          factoryCalls := (getOrCreate cache c factory now).factoryCalls,
          engineCalls := 1 } := by
    simp only [executeConversation, hs, hc, syncResponse, hmsgs, heng, hag,
      syncFinish, appendTurn, update_session]
    simp [List.append_assoc]
  rw [hexec]
  refine ⟨by simp, ?_, ht⟩
  exact get_session_update_found convStore sid s _ now hs hid

/-- Witness for C3: an empty one-session store, an engine answering "4". -/
theorem execute_success_adds_two_turns_witness :
    (executeConversation
        [("sess1", (⟨"sess1", "cfg1", 0, 0, [], [], true⟩ : ConversationSession))]
        [("cfg1", (⟨"cfg1", "demo", [⟨"calc", "calc-server", [], [], "stdio"⟩],
            none, [], 0, 0, true⟩ : AgentConfiguration))]
        (⟨50, 30, []⟩ : CacheState Nat) (fun _ => Except.ok 7)
        (fun _ _ => Except.ok (some [⟨MessageRole.assistant, "4"⟩]))
        "sess1" "2+2" 5).result = Except.ok ("4", 2) ∧
    get_session (executeConversation
        [("sess1", (⟨"sess1", "cfg1", 0, 0, [], [], true⟩ : ConversationSession))]
        [("cfg1", (⟨"cfg1", "demo", [⟨"calc", "calc-server", [], [], "stdio"⟩],
            none, [], 0, 0, true⟩ : AgentConfiguration))]
        (⟨50, 30, []⟩ : CacheState Nat) (fun _ => Except.ok 7)
        (fun _ _ => Except.ok (some [⟨MessageRole.assistant, "4"⟩]))
        "sess1" "2+2" 5).convStore "sess1"
      = some ⟨"sess1", "cfg1", 0, 5,
          [⟨MessageRole.human, "2+2"⟩, ⟨MessageRole.assistant, "4"⟩],
          [⟨MessageRole.human, "2+2", 5⟩, ⟨MessageRole.assistant, "4", 5⟩], true⟩ ∧
    (0 : Nat) < 5 :=
  execute_success_adds_two_turns _ _ _ _ _ "sess1" "2+2" 5
    (⟨"sess1", "cfg1", 0, 0, [], [], true⟩ : ConversationSession)
    (⟨"cfg1", "demo", [⟨"calc", "calc-server", [], [], "stdio"⟩], none, [], 0, 0, true⟩)
    7 (some [⟨MessageRole.assistant, "4"⟩])
    rfl rfl rfl rfl rfl (by decide)

/-- Claim C1: when the engine invocation raises, `execute` still returns
normally; the session gains exactly one assistant turn (after the human turn
of the same call) whose text is the apology string embedding the failure
description, appended to both the structured messages and the history and
persisted exactly as a successful response would be, and that text is the
returned response. -/
theorem execute_engine_failure_apology {α : Type}
    (convStore : ConvStore) (configStore : ConfigStore) (cache : CacheState α)
    (factory : AgentConfiguration → Except String α)
    (engine : α → List Msg → Except String (Option (List Msg)))
    (sid msg : String) (now : Nat) (s : ConversationSession)
    (c : AgentConfiguration) (ag : α) (err : String)
    (hs : get_session convStore sid = some s)
    (hid : s.session_id = sid)
    (hc : get_config configStore s.config_id = some c)
    (hag : (getOrCreate cache c factory now).agent = Except.ok ag)
    (herr : engine ag (s.messages ++ [⟨MessageRole.human, msg⟩]) = Except.error err) :
    (executeConversation convStore configStore cache factory engine sid msg now).result
        = Except.ok ("I apologize, but I encountered an error: " ++ err,
                     s.messages.length + 2) ∧
    get_session
        (executeConversation convStore configStore cache factory engine sid msg now).convStore
        sid
      = some { s with
          messages := s.messages ++
            [⟨MessageRole.human, msg⟩,
             ⟨MessageRole.assistant, "I apologize, but I encountered an error: " ++ err⟩],
          message_history := s.message_history ++
            [⟨MessageRole.human, msg, now⟩,
             ⟨MessageRole.assistant, "I apologize, but I encountered an error: " ++ err,
               now⟩],
          updated_at := now } ∧
    (executeConversation convStore configStore cache factory engine sid msg now).engineCalls
        = 1 := by
  have hmsgs : (appendTurn s MessageRole.human msg now).messages
      = s.messages ++ [⟨MessageRole.human, msg⟩] := rfl
  have hexec : executeConversation convStore configStore cache factory engine sid msg now
      = { result := Except.ok ("I apologize, but I encountered an error: " ++ err,
            s.messages.length + 2),
          convStore := (update_session convStore
            { s with
                messages := s.messages ++
                  [⟨MessageRole.human, msg⟩,
                   ⟨MessageRole.assistant,
                     "I apologize, but I encountered an error: " ++ err⟩],
                message_history := s.message_history ++
                  [⟨MessageRole.human, msg, now⟩,
                   ⟨MessageRole.assistant,
                     "I apologize, but I encountered an error: " ++ err, now⟩],
                updated_at := now } now).1,
          cache := (getOrCreate cache c factory now).cache,
          factoryCalls := (getOrCreate cache c factory now).factoryCalls,
          engineCalls := 1 } := by
    simp only [executeConversation, hs, hc, syncResponse, hmsgs, herr, hag,
      syncFinish, appendTurn, update_session, errorResponseText]
    simp [List.append_assoc]
  rw [hexec]
  refine ⟨by simp, ?_, rfl⟩
  exact get_session_update_found convStore sid s _ now hs hid

/-- Witness for C1: the engine raises "boom". -/
theorem execute_engine_failure_apology_witness :
    (executeConversation
        [("sess1", (⟨"sess1", "cfg1", 0, 0, [], [], true⟩ : ConversationSession))]
        [("cfg1", (⟨"cfg1", "demo", [⟨"calc", "calc-server", [], [], "stdio"⟩],
            none, [], 0, 0, true⟩ : AgentConfiguration))]
        (⟨50, 30, []⟩ : CacheState Nat) (fun _ => Except.ok 7)
        (fun _ _ => Except.error "boom")
        "sess1" "2+2" 5).result
      = Except.ok ("I apologize, but I encountered an error: " ++ "boom", 2) ∧
    get_session (executeConversation
        [("sess1", (⟨"sess1", "cfg1", 0, 0, [], [], true⟩ : ConversationSession))]
        [("cfg1", (⟨"cfg1", "demo", [⟨"calc", "calc-server", [], [], "stdio"⟩],
            none, [], 0, 0, true⟩ : AgentConfiguration))]
        (⟨50, 30, []⟩ : CacheState Nat) (fun _ => Except.ok 7)
        (fun _ _ => Except.error "boom")
        "sess1" "2+2" 5).convStore "sess1"
      = some ⟨"sess1", "cfg1", 0, 5,
          [⟨MessageRole.human, "2+2"⟩,
           ⟨MessageRole.assistant, "I apologize, but I encountered an error: " ++ "boom"⟩],
          [⟨MessageRole.human, "2+2", 5⟩,
           ⟨MessageRole.assistant, "I apologize, but I encountered an error: " ++ "boom",
             5⟩], true⟩ ∧
    (executeConversation
        [("sess1", (⟨"sess1", "cfg1", 0, 0, [], [], true⟩ : ConversationSession))]
        [("cfg1", (⟨"cfg1", "demo", [⟨"calc", "calc-server", [], [], "stdio"⟩],
            none, [], 0, 0, true⟩ : AgentConfiguration))]
        (⟨50, 30, []⟩ : CacheState Nat) (fun _ => Except.ok 7)
        (fun _ _ => Except.error "boom")
        "sess1" "2+2" 5).engineCalls = 1 :=
  execute_engine_failure_apology _ _ _ _ _ "sess1" "2+2" 5
    (⟨"sess1", "cfg1", 0, 0, [], [], true⟩ : ConversationSession)
    (⟨"cfg1", "demo", [⟨"calc", "calc-server", [], [], "stdio"⟩], none, [], 0, 0, true⟩)
    7 "boom" rfl rfl rfl rfl rfl

/-- Claim C10: a failure while resolving the engine handle itself — the
factory call inside `get_or_create_agent` — is caught by the same `try` in
`_sync_response` as an invocation failure: `execute` returns normally with
the apology turn appended and persisted, the engine is never invoked, and
no creation failure escapes to the caller. -/
theorem execute_creation_failure_apology {α : Type}
    (convStore : ConvStore) (configStore : ConfigStore) (cache : CacheState α)
    (factory : AgentConfiguration → Except String α)
    (engine : α → List Msg → Except String (Option (List Msg)))
    (sid msg : String) (now : Nat) (s : ConversationSession)
    (c : AgentConfiguration) (err : String)
    (hs : get_session convStore sid = some s)
    (hid : s.session_id = sid)
    (hc : get_config configStore s.config_id = some c)
    (hag : (getOrCreate cache c factory now).agent = Except.error err) :
    (executeConversation convStore configStore cache factory engine sid msg now).result
        = Except.ok ("I apologize, but I encountered an error: " ++ err,
                     s.messages.length + 2) ∧
    get_session
        (executeConversation convStore configStore cache factory engine sid msg now).convStore
        sid
      = some { s with
          messages := s.messages ++
            [⟨MessageRole.human, msg⟩,
             ⟨MessageRole.assistant, "I apologize, but I encountered an error: " ++ err⟩],
          message_history := s.message_history ++
            [⟨MessageRole.human, msg, now⟩,
             ⟨MessageRole.assistant, "I apologize, but I encountered an error: " ++ err,
               now⟩],
          updated_at := now } ∧
    (executeConversation convStore configStore cache factory engine sid msg now).engineCalls
        = 0 := by
  have hexec : executeConversation convStore configStore cache factory engine sid msg now
      = { result := Except.ok ("I apologize, but I encountered an error: " ++ err,
            s.messages.length + 2),
          convStore := (update_session convStore
            { s with
                messages := s.messages ++
                  [⟨MessageRole.human, msg⟩,
                   ⟨MessageRole.assistant,
                     "I apologize, but I encountered an error: " ++ err⟩],
                message_history := s.message_history ++
                  [⟨MessageRole.human, msg, now⟩,
                   ⟨MessageRole.assistant,
                     "I apologize, but I encountered an error: " ++ err, now⟩],
                updated_at := now } now).1,
          cache := (getOrCreate cache c factory now).cache,
          factoryCalls := (getOrCreate cache c factory now).factoryCalls,
          engineCalls := 0 } := by
    simp only [executeConversation, hs, hc, syncResponse, hag,
      syncFinish, appendTurn, update_session, errorResponseText]
    simp [List.append_assoc]
  rw [hexec]
  refine ⟨by simp, ?_, rfl⟩
  exact get_session_update_found convStore sid s _ now hs hid

/-- Witness for C10: the factory raises "spawn failed"; the engine would
answer but is never reached. -/
theorem execute_creation_failure_apology_witness :
    (executeConversation
        [("sess1", (⟨"sess1", "cfg1", 0, 0, [], [], true⟩ : ConversationSession))]
        [("cfg1", (⟨"cfg1", "demo", [⟨"calc", "calc-server", [], [], "stdio"⟩],
            none, [], 0, 0, true⟩ : AgentConfiguration))]
        (⟨50, 30, []⟩ : CacheState Nat) (fun _ => Except.error "spawn failed")
        (fun _ _ => Except.ok (some [⟨MessageRole.assistant, "4"⟩]))
        "sess1" "2+2" 5).result
      = Except.ok ("I apologize, but I encountered an error: " ++ "spawn failed", 2) ∧
    get_session (executeConversation
        [("sess1", (⟨"sess1", "cfg1", 0, 0, [], [], true⟩ : ConversationSession))]
        [("cfg1", (⟨"cfg1", "demo", [⟨"calc", "calc-server", [], [], "stdio"⟩],
            none, [], 0, 0, true⟩ : AgentConfiguration))]
        (⟨50, 30, []⟩ : CacheState Nat) (fun _ => Except.error "spawn failed")
        (fun _ _ => Except.ok (some [⟨MessageRole.assistant, "4"⟩]))
        "sess1" "2+2" 5).convStore "sess1"
      = some ⟨"sess1", "cfg1", 0, 5,
          [⟨MessageRole.human, "2+2"⟩,
           ⟨MessageRole.assistant,
             "I apologize, but I encountered an error: " ++ "spawn failed"⟩],
          [⟨MessageRole.human, "2+2", 5⟩,
           ⟨MessageRole.assistant,
             "I apologize, but I encountered an error: " ++ "spawn failed", 5⟩], true⟩ ∧
    (executeConversation
        [("sess1", (⟨"sess1", "cfg1", 0, 0, [], [], true⟩ : ConversationSession))]
        [("cfg1", (⟨"cfg1", "demo", [⟨"calc", "calc-server", [], [], "stdio"⟩],
            none, [], 0, 0, true⟩ : AgentConfiguration))]
        (⟨50, 30, []⟩ : CacheState Nat) (fun _ => Except.error "spawn failed")
        (fun _ _ => Except.ok (some [⟨MessageRole.assistant, "4"⟩]))
        "sess1" "2+2" 5).engineCalls = 0 :=
  execute_creation_failure_apology _ _ _ _ _ "sess1" "2+2" 5
    (⟨"sess1", "cfg1", 0, 0, [], [], true⟩ : ConversationSession)
    (⟨"cfg1", "demo", [⟨"calc", "calc-server", [], [], "stdio"⟩], none, [], 0, 0, true⟩)
    "spawn failed" rfl rfl rfl rfl

/-- Claim C8: `execute` on a session id absent from the conversation store
fails with the NotFound error before any mutation: the conversation store and
the cache are unchanged, and neither the factory nor the engine is invoked
(the configuration store is read-only in `execute` by construction). -/
theorem execute_unknown_session_no_mutation {α : Type}
    (convStore : ConvStore) (configStore : ConfigStore) (cache : CacheState α)
    (factory : AgentConfiguration → Except String α)
    (engine : α → List Msg → Except String (Option (List Msg)))
    (sid msg : String) (now : Nat)
    (hs : get_session convStore sid = none) :
    (executeConversation convStore configStore cache factory engine sid msg now).result
        = Except.error ("Session " ++ sid ++ " not found") ∧
    (executeConversation convStore configStore cache factory engine sid msg now).convStore
        = convStore ∧
    (executeConversation convStore configStore cache factory engine sid msg now).cache
        = cache ∧
    (executeConversation convStore configStore cache factory engine sid msg now).factoryCalls
        = 0 ∧
    (executeConversation convStore configStore cache factory engine sid msg now).engineCalls
        = 0 := by
  simp [executeConversation, hs]

/-- Witness for C8: an unknown session id against the one-session store. -/
theorem execute_unknown_session_no_mutation_witness :
    (executeConversation
        [("sess1", (⟨"sess1", "cfg1", 0, 0, [], [], true⟩ : ConversationSession))]
        [("cfg1", (⟨"cfg1", "demo", [⟨"calc", "calc-server", [], [], "stdio"⟩],
            none, [], 0, 0, true⟩ : AgentConfiguration))]
        (⟨50, 30, []⟩ : CacheState Nat) (fun _ => Except.ok 7)
        (fun _ _ => Except.ok (some [⟨MessageRole.assistant, "4"⟩]))
        "nosess" "2+2" 5).result
      = Except.error ("Session " ++ "nosess" ++ " not found") ∧
    (executeConversation
        [("sess1", (⟨"sess1", "cfg1", 0, 0, [], [], true⟩ : ConversationSession))]
        [("cfg1", (⟨"cfg1", "demo", [⟨"calc", "calc-server", [], [], "stdio"⟩],
            none, [], 0, 0, true⟩ : AgentConfiguration))]
        (⟨50, 30, []⟩ : CacheState Nat) (fun _ => Except.ok 7)
        (fun _ _ => Except.ok (some [⟨MessageRole.assistant, "4"⟩]))
        "nosess" "2+2" 5).convStore
      = [("sess1", (⟨"sess1", "cfg1", 0, 0, [], [], true⟩ : ConversationSession))] ∧
    (executeConversation
        [("sess1", (⟨"sess1", "cfg1", 0, 0, [], [], true⟩ : ConversationSession))]
        [("cfg1", (⟨"cfg1", "demo", [⟨"calc", "calc-server", [], [], "stdio"⟩],
            none, [], 0, 0, true⟩ : AgentConfiguration))]
        (⟨50, 30, []⟩ : CacheState Nat) (fun _ => Except.ok 7)
        (fun _ _ => Except.ok (some [⟨MessageRole.assistant, "4"⟩]))
        "nosess" "2+2" 5).cache = (⟨50, 30, []⟩ : CacheState Nat) ∧
    (executeConversation
        [("sess1", (⟨"sess1", "cfg1", 0, 0, [], [], true⟩ : ConversationSession))]
        [("cfg1", (⟨"cfg1", "demo", [⟨"calc", "calc-server", [], [], "stdio"⟩],
            none, [], 0, 0, true⟩ : AgentConfiguration))]
        (⟨50, 30, []⟩ : CacheState Nat) (fun _ => Except.ok 7)
        (fun _ _ => Except.ok (some [⟨MessageRole.assistant, "4"⟩]))
        "nosess" "2+2" 5).factoryCalls = 0 ∧
    (executeConversation
        [("sess1", (⟨"sess1", "cfg1", 0, 0, [], [], true⟩ : ConversationSession))]
        [("cfg1", (⟨"cfg1", "demo", [⟨"calc", "calc-server", [], [], "stdio"⟩],
            none, [], 0, 0, true⟩ : AgentConfiguration))]
        (⟨50, 30, []⟩ : CacheState Nat) (fun _ => Except.ok 7)
        (fun _ _ => Except.ok (some [⟨MessageRole.assistant, "4"⟩]))
        "nosess" "2+2" 5).engineCalls = 0 :=
  execute_unknown_session_no_mutation _ _ _ _ _ "nosess" "2+2" 5 rfl

/-! ## Claim C9: duplicate session id on explicit creation -/

/-- Claim C9: starting a conversation with a caller-supplied session id that
already exists in the conversation store is rejected — `insert_one` on the
duplicate `_id` raises a duplicate-key (conflict) error — and the store,
including the existing session, is left unmodified. -/
theorem start_conversation_duplicate_conflict
    (configStore : ConfigStore) (convStore : ConvStore)
    (config_id sid : String) (now : Nat)
    (c : AgentConfiguration) (s0 : ConversationSession)
    (hcfg : get_config configStore config_id = some c)
    (hex : get_session convStore sid = some s0) :
    (startConversation configStore convStore config_id sid now).1
        = Except.error ("E11000 duplicate key error: " ++ sid) ∧
    (startConversation configStore convStore config_id sid now).2 = convStore := by
  have hany : convStore.any (fun p => p.1 == sid) = true := by
    unfold get_session at hex
    cases hfind : convStore.find? (fun p => p.1 == sid) with
    | none =>
      rw [hfind] at hex
      simp at hex
    | some pair =>
      have hp := List.find?_some hfind
      exact List.any_eq_true.mpr ⟨pair, List.mem_of_find?_eq_some hfind, hp⟩
  simp only [startConversation, hcfg, create_session, create_conversation, hany,
    if_true]
  refine ⟨?_, ?_⟩ <;> trivial

/-- Witness for C9: re-creating the already-present session id "sess1". -/
theorem start_conversation_duplicate_conflict_witness :
    (startConversation
        [("cfg1", (⟨"cfg1", "demo", [⟨"calc", "calc-server", [], [], "stdio"⟩],
            none, [], 0, 0, true⟩ : AgentConfiguration))]
        [("sess1", (⟨"sess1", "cfg1", 0, 0, [], [], true⟩ : ConversationSession))]
        "cfg1" "sess1" 7).1
      = Except.error ("E11000 duplicate key error: " ++ "sess1") ∧
    (startConversation
        [("cfg1", (⟨"cfg1", "demo", [⟨"calc", "calc-server", [], [], "stdio"⟩],
            none, [], 0, 0, true⟩ : AgentConfiguration))]
        [("sess1", (⟨"sess1", "cfg1", 0, 0, [], [], true⟩ : ConversationSession))]
        "cfg1" "sess1" 7).2
      = [("sess1", (⟨"sess1", "cfg1", 0, 0, [], [], true⟩ : ConversationSession))] :=
  start_conversation_duplicate_conflict _ _ "cfg1" "sess1" 7
    (⟨"cfg1", "demo", [⟨"calc", "calc-server", [], [], "stdio"⟩], none, [], 0, 0, true⟩)
    (⟨"sess1", "cfg1", 0, 0, [], [], true⟩ : ConversationSession)
    rfl rfl

/-! ## Claim C6: the streaming path -/

/-- Claim C6 (code divergence): the streaming path of `execute` is a
placeholder. On an existing session and configuration it yields the four
fixed fragments followed by the web layer's completion event, but — against
the claimed behaviour — the conversation store is returned unchanged: the
concatenated text is never appended to the session as an assistant turn and
nothing (not even the human turn) is persisted. -/
theorem stream_placeholder_no_assistant_persisted :
    (executeConversationStream
        [("sess1", (⟨"sess1", "cfg1", 0, 0, [], [], true⟩ : ConversationSession))]
        [("cfg1", (⟨"cfg1", "demo", [⟨"calc", "calc-server", [], [], "stdio"⟩],
            none, [], 0, 0, true⟩ : AgentConfiguration))]
        "sess1" "2+2" 5).1
      = Except.ok ["Processing message with configuration \x27demo\x27...",
                   "This is a ", "streamed ", "response"] ∧
    (executeConversationStream
        [("sess1", (⟨"sess1", "cfg1", 0, 0, [], [], true⟩ : ConversationSession))]
        [("cfg1", (⟨"cfg1", "demo", [⟨"calc", "calc-server", [], [], "stdio"⟩],
            none, [], 0, 0, true⟩ : AgentConfiguration))]
        "sess1" "2+2" 5).2
      = [("sess1", (⟨"sess1", "cfg1", 0, 0, [], [], true⟩ : ConversationSession))] ∧
    webStreamEvents
        [("sess1", (⟨"sess1", "cfg1", 0, 0, [], [], true⟩ : ConversationSession))]
        [("cfg1", (⟨"cfg1", "demo", [⟨"calc", "calc-server", [], [], "stdio"⟩],
            none, [], 0, 0, true⟩ : AgentConfiguration))]
        "sess1" "2+2" 5
      = [StreamEvent.message
           "Processing message with configuration \x27demo\x27...",
         StreamEvent.message "This is a ", StreamEvent.message "streamed ",
         StreamEvent.message "response", StreamEvent.complete] :=
  ⟨rfl, rfl, rfl⟩
